import Mathlib

/-!
Verification development for the PET dashboard computation pipeline
(`src/PETCalculation.py`).

The pipeline ingests a year of hourly weather data (8760 hours), derives two
mean-radiant-temperature (MRT) series (fully exposed vs. sheltered), combines
them with real/zero wind into four physiological-equivalent-temperature (PET)
series, classifies hours into 9 comfort buckets, selects a per-hour ideal
strategy by nearest-to-20.5 distance, and aggregates monthly percentage
distributions.

Modelling conventions:
* real-valued weather/PET quantities are rationals (`ℚ`), modelling the
  floating-point program without rounding;
* pandas `NaN` cells are `Option.none`;
* the external ladybug numerical models (`OutdoorSolarCal`, the PET solver,
  `Sunpath`) are black boxes, represented by an `Externals` record of
  functions; every pipeline theorem is proved for all such externals;
* Python executes strictly and line by line, so `calculate_pet` also returns
  the list of computation `Event`s in source order, which makes
  "X was computed before the failure" statements expressible.
-/

/-- Geographic location metadata of an EPW file (`epw_data.location`). -/
structure Location where
  latitude : ℚ
  longitude : ℚ
  timeZone : ℚ
  elevation : ℚ
deriving Repr, DecidableEq

/-- The weather inputs read from the EPW file in `calculate_pet`
(source lines 48–54): location plus the hourly series used by the pipeline. -/
structure WeatherYear where
  location : Location
  temperature : List ℚ
  humidity : List ℚ
  wind : List ℚ
  normalRad : List ℚ
  diffusedRad : List ℚ
  horizontalInfra : List ℚ
deriving Repr, DecidableEq

/-- Error taxonomy of the spec (§7); `invalidParameter` for met ≤ 0 or
clo < 0, `dimensionMismatch` for misaligned series lengths. -/
inductive PipelineError where
  | invalidParameter
  | dimensionMismatch
deriving Repr, DecidableEq

/-- A computation event of one pipeline run, in Python evaluation order:
the two eager MRT computations (source lines 75–76) happen before the four
PET constructions (source lines 80–83). -/
inductive Event where
  | computedExposedMRT
  | computedShelteredMRT
  | computedPET (scenario : String)
deriving Repr, DecidableEq

/-- The external numerical models used by the pipeline, kept abstract:
`solarCal loc dni dhi hir t` is `OutdoorSolarCal(...).mean_radiant_temperature`
with `fraction_body_exposed = 1` and `sky_exposure = 1`;
`petFn t h mrt w met clo` is the ladybug `PET` collection, returning the PET
series and the integer category series (codes −4..4);
`sunUp loc hoy` is `Sunpath.calculate_sun_from_hoy(hoy).is_during_day`. -/
structure Externals where
  solarCal : Location → List ℚ → List ℚ → List ℚ → List ℚ → List ℚ
  petFn : List ℚ → List ℚ → List ℚ → List ℚ → ℚ → ℚ → List ℚ × List Int
  sunUp : Location → Nat → Bool

/-- Modelled from the spec: the PET estimator's parameter contract (§4.3):
"met > 0 and clo ≥ 0 required (fails with `InvalidParameter` otherwise)".
The validation lives inside the external ladybug `PET` constructor, which is
not part of this repository's sources, so it is modelled here from the spec's
words, wrapped around the abstract solver `Externals.petFn`. -/
def petChecked (E : Externals) (t h mrt w : List ℚ) (met clo : ℚ) :
    Except PipelineError (List ℚ × List Int) :=
  if met ≤ 0 ∨ clo < 0 then Except.error PipelineError.invalidParameter
  else Except.ok (E.petFn t h mrt w met clo)

/-- `zero_wind` (source line 58): 8760 zero wind values. -/
def zero_wind : List ℚ := List.replicate 8760 0

/-- `zero_normal_rad` (source line 62). -/
def zero_normal_rad : List ℚ := List.replicate 8760 0

/-- `zero_diffused_rad` (source line 66). -/
def zero_diffused_rad : List ℚ := List.replicate 8760 0

/-- `zero_horizontal_infra` (source line 70); declared in the source but never
used afterwards (horizontal infrared is never zeroed). -/
def zero_horizontal_infra : List ℚ := List.replicate 8760 0

/-- `exposed_mrt` (source line 75): MRT with the real irradiance series. -/
def exposed_mrt (E : Externals) (w : WeatherYear) : List ℚ :=
  E.solarCal w.location w.normalRad w.diffusedRad w.horizontalInfra w.temperature

/-- `sheltered_mrt` (source line 76): MRT with direct-normal and
diffuse-horizontal irradiance zeroed; horizontal infrared and air temperature
passed unchanged. -/
def sheltered_mrt (E : Externals) (w : WeatherYear) : List ℚ :=
  E.solarCal w.location zero_normal_rad zero_diffused_rad w.horizontalInfra w.temperature

/-- `fully_exposed` (source line 80): PET of (exposed MRT, real wind). -/
def fully_exposed (E : Externals) (w : WeatherYear) (met clo : ℚ) :
    Except PipelineError (List ℚ × List Int) :=
  petChecked E w.temperature w.humidity (exposed_mrt E w) w.wind met clo

/-- `sun_sheltered` (source line 81): PET of (sheltered MRT, real wind). -/
def sun_sheltered (E : Externals) (w : WeatherYear) (met clo : ℚ) :
    Except PipelineError (List ℚ × List Int) :=
  petChecked E w.temperature w.humidity (sheltered_mrt E w) w.wind met clo

/-- `wind_sheltered` (source line 82): PET of (exposed MRT, zero wind). -/
def wind_sheltered (E : Externals) (w : WeatherYear) (met clo : ℚ) :
    Except PipelineError (List ℚ × List Int) :=
  petChecked E w.temperature w.humidity (exposed_mrt E w) zero_wind met clo

/-- `fully_sheltered` (source line 83): PET of (sheltered MRT, zero wind). -/
def fully_sheltered (E : Externals) (w : WeatherYear) (met clo : ℚ) :
    Except PipelineError (List ℚ × List Int) :=
  petChecked E w.temperature w.humidity (sheltered_mrt E w) zero_wind met clo

/-- `temp_map` (source lines 126–136, applied via `.replace` at line 142):
translates the integer comfort codes into labels; pandas `.replace` leaves a
value unchanged when it has no mapping, modelled by `toString`. -/
def temp_map (c : Int) : String :=
  if c = -4 then "Very Cold"
  else if c = -3 then "Cold"
  else if c = -2 then "Cool"
  else if c = -1 then "Slightly Cool"
  else if c = 0 then "Comfort"
  else if c = 1 then "Slightly Warm"
  else if c = 2 then "Warm"
  else if c = 3 then "Hot"
  else if c = 4 then "Very Hot"
  else toString c

/-- One row of the year-table `df` built at source lines 112–123, after the
category replacement of line 142. `date` is the hour offset from the fixed
reference start `2025-01-01 00:00` (the `pd.date_range` of lines 98–100
advances by exactly one hour per row). -/
structure HourlyComfortRecord where
  date : Nat
  sun : Bool
  fullyExposedPET : ℚ
  sunShelteredPET : ℚ
  windShelteredPET : ℚ
  fullyShelteredPET : ℚ
  fullyExposedCategory : String
  sunShelteredCategory : String
  windShelteredCategory : String
  fullyShelteredCategory : String
deriving Repr, DecidableEq

/-- `datetime_range` (source lines 98–100): hourly timestamps from
`2025-01-01 00:00` to `2025-12-31 23:00`; 2025 is a non-leap year, so this is
exactly 8760 hourly stamps, modelled by their hour offsets `0..8759`. -/
def date_range : List Nat := List.range 8760

/-- `sun_up` (source lines 106–110): the day/night flag per hour of year. -/
def sun_up (E : Externals) (loc : Location) : List Bool :=
  (List.range 8760).map (fun i => E.sunUp loc i)

/-- Assembles the `pd.DataFrame` of source lines 112–123 from its ten equal
length columns (row `i` reads entry `i` of every column). -/
def buildRecords (dates : List Nat) (sun : List Bool) (fe ss ws fs : List ℚ)
    (fec ssc wsc fsc : List String) : List HourlyComfortRecord :=
  (List.range dates.length).map (fun i =>
    { date := dates.getD i 0
      sun := sun.getD i false
      fullyExposedPET := fe.getD i 0
      sunShelteredPET := ss.getD i 0
      windShelteredPET := ws.getD i 0
      fullyShelteredPET := fs.getD i 0
      fullyExposedCategory := fec.getD i ""
      sunShelteredCategory := ssc.getD i ""
      windShelteredCategory := wsc.getD i ""
      fullyShelteredCategory := fsc.getD i "" })

/-- `calculate_pet` (source lines 42–144). Returns the events that occurred,
in Python evaluation order, together with the result: the two MRT series are
computed eagerly (lines 75–76) before the first `PET` construction (line 80),
so a parameter failure still has both MRT events in its trace. The
`dimensionMismatch` case models the `pd.DataFrame` constructor of line 112
rejecting columns of unequal length. -/
def calculate_pet (E : Externals) (w : WeatherYear) (met clo : ℚ) :
    List Event × Except PipelineError (List HourlyComfortRecord) :=
  match fully_exposed E w met clo with
  | Except.error e =>
      ([Event.computedExposedMRT, Event.computedShelteredMRT], Except.error e)
  | Except.ok fe =>
  match sun_sheltered E w met clo with
  | Except.error e =>
      ([Event.computedExposedMRT, Event.computedShelteredMRT,
        Event.computedPET "Fully Exposed"], Except.error e)
  | Except.ok ss =>
  match wind_sheltered E w met clo with
  | Except.error e =>
      ([Event.computedExposedMRT, Event.computedShelteredMRT,
        Event.computedPET "Fully Exposed", Event.computedPET "Sun Sheltered"],
       Except.error e)
  | Except.ok ws =>
  match fully_sheltered E w met clo with
  | Except.error e =>
      ([Event.computedExposedMRT, Event.computedShelteredMRT,
        Event.computedPET "Fully Exposed", Event.computedPET "Sun Sheltered",
        Event.computedPET "Wind Sheltered"], Except.error e)
  | Except.ok fs =>
      ([Event.computedExposedMRT, Event.computedShelteredMRT,
        Event.computedPET "Fully Exposed", Event.computedPET "Sun Sheltered",
        Event.computedPET "Wind Sheltered", Event.computedPET "Fully Sheltered"],
       if fe.1.length = 8760 ∧ ss.1.length = 8760 ∧ ws.1.length = 8760 ∧
          fs.1.length = 8760 ∧ fe.2.length = 8760 ∧ ss.2.length = 8760 ∧
          ws.2.length = 8760 ∧ fs.2.length = 8760 then
         Except.ok (buildRecords date_range (sun_up E w.location)
           fe.1 ss.1 ws.1 fs.1
           (fe.2.map temp_map) (ss.2.map temp_map)
           (ws.2.map temp_map) (fs.2.map temp_map))
       else Except.error PipelineError.dimensionMismatch)

/-- `day_pet_columns` (source line 392): the four PET columns, in order. -/
def day_pet_columns : List String :=
  ["Fully Exposed PET", "Sun Sheltered PET", "Wind Sheltered PET", "Fully Sheltered PET"]

/-- `night_pet_columns` (source line 396): declared in the source but never
used — line 397 applies `day_pet_columns` instead. -/
def night_pet_columns : List String :=
  ["Fully Exposed PET", "Wind Sheltered PET"]

/-- Reads the PET column named `c` out of a year-table row. -/
def petColumnValue (r : HourlyComfortRecord) (c : String) : ℚ :=
  if c = "Fully Exposed PET" then r.fullyExposedPET
  else if c = "Sun Sheltered PET" then r.sunShelteredPET
  else if c = "Wind Sheltered PET" then r.windShelteredPET
  else if c = "Fully Sheltered PET" then r.fullyShelteredPET
  else 0

/-- pandas `Series.idxmin`: the label of the first entry attaining the
minimal value (ties resolve to the earliest label). -/
def idxminFirst (pairs : List (String × ℚ)) : String :=
  match pairs with
  | [] => ""
  | p :: rest => (rest.foldl (fun best q => if q.2 < best.2 then q else best) p).1

/-- `row.sub(20.5).abs().idxmin()` over the columns `cols`
(source lines 393 and 397). -/
def row_sub_abs_idxmin (cols : List String) (r : HourlyComfortRecord) : String :=
  idxminFirst (cols.map (fun c => (c, |petColumnValue r c - (41 / 2 : ℚ)|)))

/-- The absolute distances `row.sub(20.5).abs()` over the four day columns. -/
def petAbsDiffs (r : HourlyComfortRecord) : List ℚ :=
  day_pet_columns.map (fun c => |petColumnValue r c - (41 / 2 : ℚ)|)

/-- `pet_df[pet_df['Sun'] == True]` (source line 388). -/
def day_rows (records : List HourlyComfortRecord) : List HourlyComfortRecord :=
  records.filter (fun r => r.sun == true)

/-- `pet_df[pet_df['Sun'] == False]` (source line 389). -/
def night_rows (records : List HourlyComfortRecord) : List HourlyComfortRecord :=
  records.filter (fun r => r.sun == false)

/-- `day_pet_df` with its `'Ideal Strategy'` column (source lines 388, 393):
each daytime row paired with the idxmin label over `day_pet_columns`. -/
def day_pet_df (records : List HourlyComfortRecord) :
    List (HourlyComfortRecord × String) :=
  (day_rows records).map (fun r => (r, row_sub_abs_idxmin day_pet_columns r))

/-- `night_pet_df` with its `'Ideal Strategy'` column (source lines 389, 397).
Note: the source declares `night_pet_columns` on line 396 but line 397
nonetheless applies the idxmin over `day_pet_df[day_pet_columns]`, i.e. over
all four columns; this definition reproduces that faithfully. -/
def night_pet_df (records : List HourlyComfortRecord) :
    List (HourlyComfortRecord × String) :=
  (night_rows records).map (fun r => (r, row_sub_abs_idxmin day_pet_columns r))

/-- The options of the time-of-day select box (source lines 337–340). -/
def time_options : List String := ["Daytime", "Nighttime", "Entire Day"]

/-- The `data_df` dispatch (source lines 405–409): `if` for `'Daytime'`,
`elif` for `'Nighttime'`, and no `else` branch — for any other selection
(in particular the offered `'Entire Day'` option) the Python leaves `data_df`
unbound and its first use raises `NameError`; that unbound state is `none`. -/
def selectDataDf (t : String) (day night : List (HourlyComfortRecord × String)) :
    Option (List (HourlyComfortRecord × String)) :=
  if t = "Daytime" then some day
  else if t = "Nighttime" then some night
  else none

/-- `comfort_categories` (source lines 400–401). -/
def comfort_categories : List String :=
  ["Very Cold", "Cold", "Cool", "Slightly Cool", "Comfort",
   "Slightly Warm", "Warm", "Hot", "Very Hot"]

/-- `custom_month_order` (source line 166): meteorological year, Dec first. -/
def custom_month_order : List Nat := [12, 1, 2, 3, 4, 5, 6, 7, 8, 9, 10, 11]

/-- `calendar.month_abbr` (source line 170). -/
def month_abbr : List String :=
  ["", "Jan", "Feb", "Mar", "Apr", "May", "Jun", "Jul", "Aug", "Sep", "Oct",
   "Nov", "Dec"]

/-- `calendar.month_abbr[m]`. -/
def monthAbbr (m : Nat) : String := month_abbr.getD m ""

/-- Number of input rows belonging to month `m`: the size of the groupby
group, which is also `monthly_data.sum(axis=1)` for that row (source lines
153 and 156). The input dataframe is represented by the projection the
function reads: one `(Month, category label)` pair per row. -/
def monthRowCount (df : List (Nat × String)) (m : Nat) : Nat :=
  (df.filter (fun r => r.1 == m)).length

/-- `df.groupby(month)[category].value_counts()` entry for `(m, c)`, with the
`unstack().fillna(0)` zero-fill (source line 153). -/
def categoryCount (df : List (Nat × String)) (m : Nat) (c : String) : Nat :=
  (df.filter (fun r => r.1 == m && r.2 == c)).length

/-- One output row of `calculate_monthly_comfort_percentages` for month `m`:
if the month has rows, the percentage per category in the order `cats`
(source lines 156–163); if the groupby produced no group for `m`, the
`reindex` of line 167 creates the row filled with `NaN`, i.e. `none`. -/
def monthRow (df : List (Nat × String)) (cats : List String) (m : Nat) :
    Option (List ℚ) :=
  if monthRowCount df m = 0 then none
  else some (cats.map (fun c =>
    (categoryCount df m c : ℚ) / (monthRowCount df m : ℚ) * 100))

/-- `calculate_monthly_comfort_percentages` (source lines 150–172): one row
per month in Dec-first order, as (month number, month abbreviation,
percentage row). A row dropped by the category-column subsetting of line 163
never occurs because the subsetting keeps exactly the `cats` columns, which
is what `monthRow` produces. -/
def calculate_monthly_comfort_percentages (df : List (Nat × String))
    (cats : List String) : List (Nat × String × Option (List ℚ)) :=
  custom_month_order.map (fun m => (m, monthAbbr m, monthRow df cats m))

/-- Concrete externals used to exercise the pipeline: MRT echoes the air
temperature, the PET solver echoes the air-temperature series with
all-`Comfort` categories, and the sun is up during hours 6–17 of each day. -/
def constExternals : Externals where
  solarCal := fun _ _ _ _ t => t
  petFn := fun t _ _ _ _ _ => (t, t.map (fun _ => (0 : Int)))
  sunUp := fun _ i => decide (6 ≤ i % 24 ∧ i % 24 < 18)

/-- A concrete valid weather year: constant mild conditions, zero wind. -/
def testWeather : WeatherYear where
  location := { latitude := 0, longitude := 0, timeZone := 0, elevation := 0 }
  temperature := List.replicate 8760 20
  humidity := List.replicate 8760 50
  wind := List.replicate 8760 0
  normalRad := List.replicate 8760 100
  diffusedRad := List.replicate 8760 50
  horizontalInfra := List.replicate 8760 300

/-- A nighttime year-table row whose `Sun Sheltered PET` is the unique value
closest to the 20.5 target. -/
def nightRecord : HourlyComfortRecord where
  date := 0
  sun := false
  fullyExposedPET := 10
  sunShelteredPET := 41 / 2
  windShelteredPET := 10
  fullyShelteredPET := 10
  fullyExposedCategory := "Cool"
  sunShelteredCategory := "Comfort"
  windShelteredCategory := "Cool"
  fullyShelteredCategory := "Cool"

/-- A daytime year-table row. -/
def dayRecord : HourlyComfortRecord :=
  { nightRecord with date := 12, sun := true }

/-- A one-row aggregation input: a single January hour labelled Comfort. -/
def df0 : List (Nat × String) := [(1, "Comfort")]

/-- All six hourly series of a weather year have the EPW length 8760. -/
def ValidWeather (w : WeatherYear) : Prop :=
  w.temperature.length = 8760 ∧ w.humidity.length = 8760 ∧
  w.wind.length = 8760 ∧ w.normalRad.length = 8760 ∧
  w.diffusedRad.length = 8760 ∧ w.horizontalInfra.length = 8760

/-- The external models respect the series-length contracts of spec §4.2/§4.3
("Output: one mean-radiant-temperature value per hour, same length as
input"): outputs are as long as the air-temperature input. -/
def LengthPreserving (E : Externals) : Prop :=
  (∀ loc dni dhi hir t, (E.solarCal loc dni dhi hir t).length = t.length) ∧
  (∀ t h mrt wd met clo, (E.petFn t h mrt wd met clo).1.length = t.length ∧
    (E.petFn t h mrt wd met clo).2.length = t.length)

theorem map_getD_range {α : Type} (l : List α) (d : α) :
    (List.range l.length).map (fun i => l.getD i d) = l := by
  apply List.ext_getElem
  · simp
  · intro i h1 h2
    simp [List.getD_eq_getElem _ _ h2, List.getElem?_eq_getElem h2]

theorem buildRecords_length (dates : List Nat) (sun : List Bool)
    (fe ss ws fs : List ℚ) (fec ssc wsc fsc : List String) :
    (buildRecords dates sun fe ss ws fs fec ssc wsc fsc).length = dates.length := by
  simp [buildRecords]

theorem buildRecords_map_date (dates : List Nat) (sun : List Bool)
    (fe ss ws fs : List ℚ) (fec ssc wsc fsc : List String) :
    (buildRecords dates sun fe ss ws fs fec ssc wsc fsc).map
      (fun r => r.date) = dates := by
  simp only [buildRecords, List.map_map]
  exact map_getD_range dates 0

theorem buildRecords_map_fe (dates : List Nat) (sun : List Bool)
    (fe ss ws fs : List ℚ) (fec ssc wsc fsc : List String)
    (h : fe.length = dates.length) :
    (buildRecords dates sun fe ss ws fs fec ssc wsc fsc).map
      (fun r => r.fullyExposedPET) = fe := by
  simp only [buildRecords, List.map_map]
  rw [← h]
  exact map_getD_range fe 0

theorem buildRecords_map_ss (dates : List Nat) (sun : List Bool)
    (fe ss ws fs : List ℚ) (fec ssc wsc fsc : List String)
    (h : ss.length = dates.length) :
    (buildRecords dates sun fe ss ws fs fec ssc wsc fsc).map
      (fun r => r.sunShelteredPET) = ss := by
  simp only [buildRecords, List.map_map]
  rw [← h]
  exact map_getD_range ss 0

theorem buildRecords_map_ws (dates : List Nat) (sun : List Bool)
    (fe ss ws fs : List ℚ) (fec ssc wsc fsc : List String)
    (h : ws.length = dates.length) :
    (buildRecords dates sun fe ss ws fs fec ssc wsc fsc).map
      (fun r => r.windShelteredPET) = ws := by
  simp only [buildRecords, List.map_map]
  rw [← h]
  exact map_getD_range ws 0

theorem buildRecords_map_fs (dates : List Nat) (sun : List Bool)
    (fe ss ws fs : List ℚ) (fec ssc wsc fsc : List String)
    (h : fs.length = dates.length) :
    (buildRecords dates sun fe ss ws fs fec ssc wsc fsc).map
      (fun r => r.fullyShelteredPET) = fs := by
  simp only [buildRecords, List.map_map]
  rw [← h]
  exact map_getD_range fs 0

theorem petChecked_ok (E : Externals) (t h mrt wd : List ℚ) (met clo : ℚ)
    (hm : 0 < met) (hc : 0 ≤ clo) :
    petChecked E t h mrt wd met clo = Except.ok (E.petFn t h mrt wd met clo) := by
  have hcond : ¬(met ≤ 0 ∨ clo < 0) := by
    push_neg
    exact ⟨hm, hc⟩
  simp only [petChecked, if_neg hcond]

theorem calculate_pet_success (E : Externals) (w : WeatherYear) (met clo : ℚ)
    (hm : 0 < met) (hc : 0 ≤ clo) (hE : LengthPreserving E) (hw : ValidWeather w) :
    calculate_pet E w met clo =
      ([Event.computedExposedMRT, Event.computedShelteredMRT,
        Event.computedPET "Fully Exposed", Event.computedPET "Sun Sheltered",
        Event.computedPET "Wind Sheltered", Event.computedPET "Fully Sheltered"],
       Except.ok (buildRecords date_range (sun_up E w.location)
         (E.petFn w.temperature w.humidity (exposed_mrt E w) w.wind met clo).1
         (E.petFn w.temperature w.humidity (sheltered_mrt E w) w.wind met clo).1
         (E.petFn w.temperature w.humidity (exposed_mrt E w) zero_wind met clo).1
         (E.petFn w.temperature w.humidity (sheltered_mrt E w) zero_wind met clo).1
         ((E.petFn w.temperature w.humidity (exposed_mrt E w) w.wind met clo).2.map temp_map)
         ((E.petFn w.temperature w.humidity (sheltered_mrt E w) w.wind met clo).2.map temp_map)
         ((E.petFn w.temperature w.humidity (exposed_mrt E w) zero_wind met clo).2.map temp_map)
         ((E.petFn w.temperature w.humidity (sheltered_mrt E w) zero_wind met clo).2.map temp_map))) := by
  have hl1 : ∀ mrt wd, (E.petFn w.temperature w.humidity mrt wd met clo).1.length = 8760 := by
    intro mrt wd
    rw [(hE.2 w.temperature w.humidity mrt wd met clo).1, hw.1]
  have hl2 : ∀ mrt wd, (E.petFn w.temperature w.humidity mrt wd met clo).2.length = 8760 := by
    intro mrt wd
    rw [(hE.2 w.temperature w.humidity mrt wd met clo).2, hw.1]
  simp only [calculate_pet, fully_exposed, sun_sheltered, wind_sheltered,
    fully_sheltered, petChecked_ok E _ _ _ _ met clo hm hc, hl1, hl2, and_self,
    if_true]

theorem lengthPreserving_constExternals : LengthPreserving constExternals := by
  constructor
  · intro loc dni dhi hir t
    rfl
  · intro t h mrt wd met clo
    constructor
    · rfl
    · simp [constExternals]

theorem validWeather_testWeather : ValidWeather testWeather := by
  refine ⟨?_, ?_, ?_, ?_, ?_, ?_⟩ <;>
    simp only [testWeather, List.length_replicate]

/-- C5: the pipeline computes the sheltered MRT with direct-normal and
diffuse-horizontal irradiance replaced by all-zero series of length 8760
while horizontal infrared and air temperature are passed unchanged, and pairs
the four PET series as FullyExposed = (exposed MRT, real wind),
SunSheltered = (sheltered MRT, real wind), WindSheltered = (exposed MRT, zero
wind), FullySheltered = (sheltered MRT, zero wind). -/
theorem calculate_pet_wiring (E : Externals) (w : WeatherYear) (met clo : ℚ)
    (hm : 0 < met) (hc : 0 ≤ clo) (hE : LengthPreserving E)
    (hw : ValidWeather w) :
    sheltered_mrt E w = E.solarCal w.location (List.replicate 8760 0)
      (List.replicate 8760 0) w.horizontalInfra w.temperature
    ∧ ∃ records, (calculate_pet E w met clo).2 = Except.ok records
      ∧ records.map (fun r => r.fullyExposedPET) =
          (E.petFn w.temperature w.humidity (exposed_mrt E w) w.wind met clo).1
      ∧ records.map (fun r => r.sunShelteredPET) =
          (E.petFn w.temperature w.humidity (sheltered_mrt E w) w.wind met clo).1
      ∧ records.map (fun r => r.windShelteredPET) =
          (E.petFn w.temperature w.humidity (exposed_mrt E w)
            (List.replicate 8760 0) met clo).1
      ∧ records.map (fun r => r.fullyShelteredPET) =
          (E.petFn w.temperature w.humidity (sheltered_mrt E w)
            (List.replicate 8760 0) met clo).1 := by
  have hs := calculate_pet_success E w met clo hm hc hE hw
  have hdl : date_range.length = 8760 := by simp [date_range]
  have hl1 : ∀ mrt wd,
      (E.petFn w.temperature w.humidity mrt wd met clo).1.length =
        date_range.length := by
    intro mrt wd
    rw [(hE.2 w.temperature w.humidity mrt wd met clo).1, hw.1, hdl]
  have h2 : (calculate_pet E w met clo).2 =
      Except.ok (buildRecords date_range (sun_up E w.location)
        (E.petFn w.temperature w.humidity (exposed_mrt E w) w.wind met clo).1
        (E.petFn w.temperature w.humidity (sheltered_mrt E w) w.wind met clo).1
        (E.petFn w.temperature w.humidity (exposed_mrt E w) zero_wind met clo).1
        (E.petFn w.temperature w.humidity (sheltered_mrt E w) zero_wind met clo).1
        ((E.petFn w.temperature w.humidity (exposed_mrt E w) w.wind met clo).2.map temp_map)
        ((E.petFn w.temperature w.humidity (sheltered_mrt E w) w.wind met clo).2.map temp_map)
        ((E.petFn w.temperature w.humidity (exposed_mrt E w) zero_wind met clo).2.map temp_map)
        ((E.petFn w.temperature w.humidity (sheltered_mrt E w) zero_wind met clo).2.map temp_map)) := by
    rw [hs]
  refine ⟨rfl, _, h2, ?_, ?_, ?_, ?_⟩
  · exact buildRecords_map_fe _ _ _ _ _ _ _ _ _ _ (hl1 _ _)
  · exact buildRecords_map_ss _ _ _ _ _ _ _ _ _ _ (hl1 _ _)
  · exact buildRecords_map_ws _ _ _ _ _ _ _ _ _ _ (hl1 _ _)
  · exact buildRecords_map_fs _ _ _ _ _ _ _ _ _ _ (hl1 _ _)

theorem calculate_pet_wiring_witness :
    ∃ records, (calculate_pet constExternals testWeather 1 1).2 = Except.ok records
      ∧ records.map (fun r => r.fullyExposedPET) =
          (constExternals.petFn testWeather.temperature testWeather.humidity
            (exposed_mrt constExternals testWeather) testWeather.wind 1 1).1
      ∧ records.map (fun r => r.sunShelteredPET) =
          (constExternals.petFn testWeather.temperature testWeather.humidity
            (sheltered_mrt constExternals testWeather) testWeather.wind 1 1).1
      ∧ records.map (fun r => r.windShelteredPET) =
          (constExternals.petFn testWeather.temperature testWeather.humidity
            (exposed_mrt constExternals testWeather)
            (List.replicate 8760 0) 1 1).1
      ∧ records.map (fun r => r.fullyShelteredPET) =
          (constExternals.petFn testWeather.temperature testWeather.humidity
            (sheltered_mrt constExternals testWeather)
            (List.replicate 8760 0) 1 1).1 :=
  (calculate_pet_wiring constExternals testWeather 1 1 (by norm_num)
    (by norm_num) lengthPreserving_constExternals validWeather_testWeather).2

/-- C6: for every valid weather year (and length-contract-respecting external
models), the pipeline output has exactly 8760 records whose timestamps are
the consecutive hours 0..8759 of the non-leap reference year: strictly
increasing, one-hour steps, covering 365 × 24 hours. -/
theorem calculate_pet_record_count (E : Externals) (w : WeatherYear)
    (met clo : ℚ) (hm : 0 < met) (hc : 0 ≤ clo) (hE : LengthPreserving E)
    (hw : ValidWeather w) :
    ∃ records, (calculate_pet E w met clo).2 = Except.ok records
      ∧ records.length = 8760
      ∧ records.map (fun r => r.date) = List.range (365 * 24)
      ∧ List.Pairwise (fun a b => a < b) (records.map (fun r => r.date))
      ∧ ∀ i, i + 1 < 8760 →
          (records.map (fun r => r.date)).getD (i + 1) 0 =
            (records.map (fun r => r.date)).getD i 0 + 1 := by
  have hs := calculate_pet_success E w met clo hm hc hE hw
  have h2 : (calculate_pet E w met clo).2 =
      Except.ok (buildRecords date_range (sun_up E w.location)
        (E.petFn w.temperature w.humidity (exposed_mrt E w) w.wind met clo).1
        (E.petFn w.temperature w.humidity (sheltered_mrt E w) w.wind met clo).1
        (E.petFn w.temperature w.humidity (exposed_mrt E w) zero_wind met clo).1
        (E.petFn w.temperature w.humidity (sheltered_mrt E w) zero_wind met clo).1
        ((E.petFn w.temperature w.humidity (exposed_mrt E w) w.wind met clo).2.map temp_map)
        ((E.petFn w.temperature w.humidity (sheltered_mrt E w) w.wind met clo).2.map temp_map)
        ((E.petFn w.temperature w.humidity (exposed_mrt E w) zero_wind met clo).2.map temp_map)
        ((E.petFn w.temperature w.humidity (sheltered_mrt E w) zero_wind met clo).2.map temp_map)) := by
    rw [hs]
  have hdates : date_range = List.range 8760 := rfl
  have hrange : (365 : Nat) * 24 = 8760 := by norm_num
  refine ⟨_, h2, ?_, ?_, ?_, ?_⟩
  · rw [buildRecords_length]
    simp [date_range]
  · rw [buildRecords_map_date, hdates, hrange]
  · rw [buildRecords_map_date, hdates]
    exact List.pairwise_lt_range 8760
  · intro i hi
    rw [buildRecords_map_date, hdates]
    have h1 : i < (List.range 8760).length := by
      simp only [List.length_range]
      omega
    have hsucc : i + 1 < (List.range 8760).length := by
      simp only [List.length_range]
      omega
    rw [List.getD_eq_getElem _ _ hsucc, List.getD_eq_getElem _ _ h1,
      List.getElem_range, List.getElem_range]

theorem calculate_pet_record_count_witness :
    ∃ records, (calculate_pet constExternals testWeather 1 1).2 = Except.ok records
      ∧ records.length = 8760
      ∧ records.map (fun r => r.date) = List.range (365 * 24)
      ∧ List.Pairwise (fun a b => a < b) (records.map (fun r => r.date))
      ∧ ∀ i, i + 1 < 8760 →
          (records.map (fun r => r.date)).getD (i + 1) 0 =
            (records.map (fun r => r.date)).getD i 0 + 1 :=
  calculate_pet_record_count constExternals testWeather 1 1 (by norm_num)
    (by norm_num) lengthPreserving_constExternals validWeather_testWeather

/-- C7: when the wind-speed series is identically zero, the WindSheltered PET
series of the pipeline output equals the FullyExposed PET series exactly:
both scenarios are computed with the same exposed MRT and the same zero
wind. -/
theorem wind_sheltered_eq_fully_exposed_of_zero_wind (E : Externals)
    (w : WeatherYear) (met clo : ℚ) (hm : 0 < met) (hc : 0 ≤ clo)
    (hE : LengthPreserving E) (hw : ValidWeather w)
    (hwind : w.wind = List.replicate 8760 0) :
    ∃ records, (calculate_pet E w met clo).2 = Except.ok records
      ∧ records.map (fun r => r.windShelteredPET) =
          records.map (fun r => r.fullyExposedPET) := by
  have hs := calculate_pet_success E w met clo hm hc hE hw
  have hdl : date_range.length = 8760 := by simp [date_range]
  have hl1 : ∀ mrt wd,
      (E.petFn w.temperature w.humidity mrt wd met clo).1.length =
        date_range.length := by
    intro mrt wd
    rw [(hE.2 w.temperature w.humidity mrt wd met clo).1, hw.1, hdl]
  have h2 : (calculate_pet E w met clo).2 =
      Except.ok (buildRecords date_range (sun_up E w.location)
        (E.petFn w.temperature w.humidity (exposed_mrt E w) w.wind met clo).1
        (E.petFn w.temperature w.humidity (sheltered_mrt E w) w.wind met clo).1
        (E.petFn w.temperature w.humidity (exposed_mrt E w) zero_wind met clo).1
        (E.petFn w.temperature w.humidity (sheltered_mrt E w) zero_wind met clo).1
        ((E.petFn w.temperature w.humidity (exposed_mrt E w) w.wind met clo).2.map temp_map)
        ((E.petFn w.temperature w.humidity (sheltered_mrt E w) w.wind met clo).2.map temp_map)
        ((E.petFn w.temperature w.humidity (exposed_mrt E w) zero_wind met clo).2.map temp_map)
        ((E.petFn w.temperature w.humidity (sheltered_mrt E w) zero_wind met clo).2.map temp_map)) := by
    rw [hs]
  refine ⟨_, h2, ?_⟩
  rw [buildRecords_map_ws _ _ _ _ _ _ _ _ _ _ (hl1 _ _),
    buildRecords_map_fe _ _ _ _ _ _ _ _ _ _ (hl1 _ _), hwind]
  rfl

theorem wind_sheltered_eq_fully_exposed_witness :
    ∃ records, (calculate_pet constExternals testWeather 1 1).2 = Except.ok records
      ∧ records.map (fun r => r.windShelteredPET) =
          records.map (fun r => r.fullyExposedPET) :=
  wind_sheltered_eq_fully_exposed_of_zero_wind constExternals testWeather 1 1
    (by norm_num) (by norm_num) lengthPreserving_constExternals
    validWeather_testWeather rfl

/-- C8: the pipeline is deterministic — two runs of `calculate_pet` with the
same external models, identical weather data and identical human parameters
produce identical traces and identical outputs in every field of every
record. -/
theorem calculate_pet_deterministic (E : Externals) (w w2 : WeatherYear)
    (met met2 clo clo2 : ℚ) (hw : w = w2) (hm : met = met2) (hc : clo = clo2) :
    calculate_pet E w met clo = calculate_pet E w2 met2 clo2 := by
  rw [hw, hm, hc]

theorem calculate_pet_deterministic_witness :
    calculate_pet constExternals testWeather 1 1 =
      calculate_pet constExternals testWeather 1 1 :=
  calculate_pet_deterministic constExternals testWeather testWeather 1 1 1 1
    rfl rfl rfl

/-- C4 (amended): for met ≤ 0 or clo < 0 the pipeline fails with
`InvalidParameter` at the first PET construction and returns no records and
no partial output — but only after the two MRT series have been computed
(source lines 75–76 execute before line 80), so the failure is not surfaced
before any computation begins. -/
theorem calculate_pet_invalid_parameter (E : Externals) (w : WeatherYear)
    (met clo : ℚ) (h : met ≤ 0 ∨ clo < 0) :
    calculate_pet E w met clo =
      ([Event.computedExposedMRT, Event.computedShelteredMRT],
       Except.error PipelineError.invalidParameter) := by
  simp only [calculate_pet, fully_exposed, petChecked, if_pos h]

theorem calculate_pet_invalid_parameter_witness :
    (0 : ℚ) ≤ 0 ∧ calculate_pet constExternals testWeather 0 1 =
      ([Event.computedExposedMRT, Event.computedShelteredMRT],
       Except.error PipelineError.invalidParameter) :=
  ⟨le_refl 0, calculate_pet_invalid_parameter constExternals testWeather 0 1
    (Or.inl (le_refl 0))⟩

/-- C4 counterexample: at met = 0 the run does fail with `InvalidParameter`
and produces no records, but its trace already contains the exposed-MRT
computation — refuting the claim that the failure is surfaced before any
MRT series is computed. -/
theorem calculate_pet_invalid_parameter_not_fail_fast :
    (calculate_pet constExternals testWeather 0 1).2 =
      Except.error PipelineError.invalidParameter
    ∧ Event.computedExposedMRT ∈ (calculate_pet constExternals testWeather 0 1).1 := by
  constructor
  · rfl
  · rw [show (calculate_pet constExternals testWeather 0 1).1 =
      [Event.computedExposedMRT, Event.computedShelteredMRT] from rfl]
    exact List.mem_cons_self _ _

/-- C1: evaluation of the nighttime ideal-strategy assignment at the failing
input. Source line 397 applies the idxmin over `day_pet_columns` (all four
PET columns) to the nighttime rows, even though line 396 declares
`night_pet_columns` for them; a nighttime record whose Sun Sheltered PET is
the value closest to 20.5 is therefore labelled with the sun-dependent
strategy, which is not one of the two wind-dependent `night_pet_columns`. -/
theorem night_ideal_strategy_sun_dependent :
    nightRecord.sun = false
    ∧ night_pet_df [nightRecord] = [(nightRecord, "Sun Sheltered PET")]
    ∧ "Sun Sheltered PET" ∉ night_pet_columns := by
  have e1 : |(10 : ℚ) - 41 / 2| = 21 / 2 := by
    rw [abs_of_nonpos (by norm_num)]
    norm_num
  have e2 : |(41 / 2 : ℚ) - 41 / 2| = 0 := by simp
  refine ⟨rfl, ?_, by decide⟩
  rw [show night_pet_df [nightRecord] =
    [(nightRecord, idxminFirst
      [("Fully Exposed PET", |(10 : ℚ) - 41 / 2|),
       ("Sun Sheltered PET", |(41 / 2 : ℚ) - 41 / 2|),
       ("Wind Sheltered PET", |(10 : ℚ) - 41 / 2|),
       ("Fully Sheltered PET", |(10 : ℚ) - 41 / 2|)])] from rfl]
  rw [e1, e2]
  norm_num [idxminFirst, List.foldl]

/-- C3: the `data_df` dispatch (source lines 405–409) has no branch for the
`'Entire Day'` option the select box offers, so that selection never yields a
record set to aggregate (the Python raises `NameError`); in particular the
full 8760-row table is never fed to the aggregation. -/
theorem entire_day_selection_unhandled :
    "Entire Day" ∈ time_options
    ∧ ∀ day night, selectDataDf "Entire Day" day night = none := by
  constructor
  · decide
  · intro day night
    rfl

/-- C9: the Daytime and Nighttime filters partition the year-table: their
sizes add up to the full record count and every record lies in exactly one of
the two filtered subsets. -/
theorem day_night_partition (records : List HourlyComfortRecord) :
    (day_rows records).length + (night_rows records).length = records.length
    ∧ ∀ r ∈ records,
        (r ∈ day_rows records ∨ r ∈ night_rows records)
        ∧ ¬(r ∈ day_rows records ∧ r ∈ night_rows records) := by
  constructor
  · induction records with
    | nil => rfl
    | cons a l ih =>
      cases ha : a.sun <;>
        simp [day_rows, night_rows, List.filter_cons, ha] at ih ⊢ <;> omega
  · intro r hr
    constructor
    · cases hsun : r.sun with
      | false =>
        right
        exact List.mem_filter.mpr ⟨hr, by simp [hsun]⟩
      | true =>
        left
        exact List.mem_filter.mpr ⟨hr, by simp [hsun]⟩
    · rintro ⟨hd, hn⟩
      have h1 := (List.mem_filter.mp hd).2
      have h2 := (List.mem_filter.mp hn).2
      simp only [beq_iff_eq] at h1 h2
      rw [h1] at h2
      exact Bool.noConfusion h2

theorem day_night_partition_witness :
    dayRecord ∈ day_rows [dayRecord, nightRecord]
    ∨ dayRecord ∈ night_rows [dayRecord, nightRecord] :=
  ((day_night_partition [dayRecord, nightRecord]).2 dayRecord
    (List.mem_cons_self _ _)).1

theorem idxminFirst_spec4 (n1 n2 n3 n4 : String) (d1 d2 d3 d4 : ℚ) :
    ∃ i, i < 4
      ∧ idxminFirst [(n1, d1), (n2, d2), (n3, d3), (n4, d4)] =
          [n1, n2, n3, n4].getD i ""
      ∧ (∀ j < 4, [d1, d2, d3, d4].getD i 0 ≤ [d1, d2, d3, d4].getD j 0)
      ∧ (∀ j < i, [d1, d2, d3, d4].getD i 0 < [d1, d2, d3, d4].getD j 0) := by
  rcases lt_or_le d2 d1 with h2 | h2
  · rcases lt_or_le d3 d2 with h3 | h3
    · rcases lt_or_le d4 d3 with h4 | h4
      · refine ⟨3, by norm_num, ?_, ?_, ?_⟩
        · simp only [idxminFirst, List.foldl]
          rw [if_pos h2, if_pos (show d3 < (n2, d2).2 from h3),
            if_pos (show d4 < (n3, d3).2 from h4)]
          rfl
        · intro j hj
          interval_cases j <;>
            simp only [List.getD_cons_zero, List.getD_cons_succ] <;> linarith
        · intro j hj
          interval_cases j <;>
            simp only [List.getD_cons_zero, List.getD_cons_succ] <;> linarith
      · refine ⟨2, by norm_num, ?_, ?_, ?_⟩
        · simp only [idxminFirst, List.foldl]
          rw [if_pos h2, if_pos (show d3 < (n2, d2).2 from h3),
            if_neg (show ¬(d4 < (n3, d3).2) from not_lt.mpr h4)]
          rfl
        · intro j hj
          interval_cases j <;>
            simp only [List.getD_cons_zero, List.getD_cons_succ] <;> linarith
        · intro j hj
          interval_cases j <;>
            simp only [List.getD_cons_zero, List.getD_cons_succ] <;> linarith
    · rcases lt_or_le d4 d2 with h4 | h4
      · refine ⟨3, by norm_num, ?_, ?_, ?_⟩
        · simp only [idxminFirst, List.foldl]
          rw [if_pos h2, if_neg (show ¬(d3 < (n2, d2).2) from not_lt.mpr h3),
            if_pos (show d4 < (n2, d2).2 from h4)]
          rfl
        · intro j hj
          interval_cases j <;>
            simp only [List.getD_cons_zero, List.getD_cons_succ] <;> linarith
        · intro j hj
          interval_cases j <;>
            simp only [List.getD_cons_zero, List.getD_cons_succ] <;> linarith
      · refine ⟨1, by norm_num, ?_, ?_, ?_⟩
        · simp only [idxminFirst, List.foldl]
          rw [if_pos h2, if_neg (show ¬(d3 < (n2, d2).2) from not_lt.mpr h3),
            if_neg (show ¬(d4 < (n2, d2).2) from not_lt.mpr h4)]
          rfl
        · intro j hj
          interval_cases j <;>
            simp only [List.getD_cons_zero, List.getD_cons_succ] <;> linarith
        · intro j hj
          interval_cases j <;>
            simp only [List.getD_cons_zero, List.getD_cons_succ] <;> linarith
  · rcases lt_or_le d3 d1 with h3 | h3
    · rcases lt_or_le d4 d3 with h4 | h4
      · refine ⟨3, by norm_num, ?_, ?_, ?_⟩
        · simp only [idxminFirst, List.foldl]
          rw [if_neg (show ¬(d2 < d1) from not_lt.mpr h2),
            if_pos (show d3 < (n1, d1).2 from h3),
            if_pos (show d4 < (n3, d3).2 from h4)]
          rfl
        · intro j hj
          interval_cases j <;>
            simp only [List.getD_cons_zero, List.getD_cons_succ] <;> linarith
        · intro j hj
          interval_cases j <;>
            simp only [List.getD_cons_zero, List.getD_cons_succ] <;> linarith
      · refine ⟨2, by norm_num, ?_, ?_, ?_⟩
        · simp only [idxminFirst, List.foldl]
          rw [if_neg (show ¬(d2 < d1) from not_lt.mpr h2),
            if_pos (show d3 < (n1, d1).2 from h3),
            if_neg (show ¬(d4 < (n3, d3).2) from not_lt.mpr h4)]
          rfl
        · intro j hj
          interval_cases j <;>
            simp only [List.getD_cons_zero, List.getD_cons_succ] <;> linarith
        · intro j hj
          interval_cases j <;>
            simp only [List.getD_cons_zero, List.getD_cons_succ] <;> linarith
    · rcases lt_or_le d4 d1 with h4 | h4
      · refine ⟨3, by norm_num, ?_, ?_, ?_⟩
        · simp only [idxminFirst, List.foldl]
          rw [if_neg (show ¬(d2 < d1) from not_lt.mpr h2),
            if_neg (show ¬(d3 < (n1, d1).2) from not_lt.mpr h3),
            if_pos (show d4 < (n1, d1).2 from h4)]
          rfl
        · intro j hj
          interval_cases j <;>
            simp only [List.getD_cons_zero, List.getD_cons_succ] <;> linarith
        · intro j hj
          interval_cases j <;>
            simp only [List.getD_cons_zero, List.getD_cons_succ] <;> linarith
      · refine ⟨0, by norm_num, ?_, ?_, ?_⟩
        · simp only [idxminFirst, List.foldl]
          rw [if_neg (show ¬(d2 < d1) from not_lt.mpr h2),
            if_neg (show ¬(d3 < (n1, d1).2) from not_lt.mpr h3),
            if_neg (show ¬(d4 < (n1, d1).2) from not_lt.mpr h4)]
          rfl
        · intro j hj
          interval_cases j <;>
            simp only [List.getD_cons_zero, List.getD_cons_succ] <;> linarith
        · intro j hj
          omega

/-- C10: the ideal-strategy label is the name of the first PET column, in the
fixed order of `day_pet_columns`, attaining the minimum absolute difference
from the 20.5 neutral target among the compared columns: its distance is a
lower bound for all four distances, and every strictly earlier column's
distance is strictly larger (ties break to the earlier column). -/
theorem ideal_strategy_first_argmin (r : HourlyComfortRecord) :
    ∃ i, i < day_pet_columns.length
      ∧ row_sub_abs_idxmin day_pet_columns r = day_pet_columns.getD i ""
      ∧ (∀ j < day_pet_columns.length,
          (petAbsDiffs r).getD i 0 ≤ (petAbsDiffs r).getD j 0)
      ∧ (∀ j < i, (petAbsDiffs r).getD i 0 < (petAbsDiffs r).getD j 0) :=
  idxminFirst_spec4 "Fully Exposed PET" "Sun Sheltered PET"
    "Wind Sheltered PET" "Fully Sheltered PET"
    |r.fullyExposedPET - 41 / 2| |r.sunShelteredPET - 41 / 2|
    |r.windShelteredPET - 41 / 2| |r.fullyShelteredPET - 41 / 2|

theorem ideal_strategy_first_argmin_witness :
    ∃ i, i < day_pet_columns.length
      ∧ row_sub_abs_idxmin day_pet_columns nightRecord =
          day_pet_columns.getD i ""
      ∧ (∀ j < day_pet_columns.length,
          (petAbsDiffs nightRecord).getD i 0 ≤ (petAbsDiffs nightRecord).getD j 0)
      ∧ (∀ j < i,
          (petAbsDiffs nightRecord).getD i 0 < (petAbsDiffs nightRecord).getD j 0) :=
  ideal_strategy_first_argmin nightRecord

theorem sum_map_add_nat {α : Type} (l : List α) (f g : α → ℕ) :
    (l.map (fun c => f c + g c)).sum = (l.map f).sum + (l.map g).sum := by
  induction l with
  | nil => rfl
  | cons a t ih =>
    simp only [List.map_cons, List.sum_cons, ih]
    omega

theorem sum_indicator_zero (x : String) (cats : List String) (hx : x ∉ cats) :
    (cats.map (fun c => if x = c then (1 : ℕ) else 0)).sum = 0 := by
  induction cats with
  | nil => rfl
  | cons a t ih =>
    simp only [List.mem_cons, not_or] at hx
    simp only [List.map_cons, List.sum_cons, if_neg hx.1, ih hx.2]

theorem sum_indicator_one (x : String) (cats : List String)
    (hnd : cats.Nodup) (hx : x ∈ cats) :
    (cats.map (fun c => if x = c then (1 : ℕ) else 0)).sum = 1 := by
  induction cats with
  | nil => cases hx
  | cons a t ih =>
    simp only [List.map_cons, List.sum_cons]
    rcases List.mem_cons.mp hx with h | h
    · have hnt : x ∉ t := by
        rw [h]
        exact (List.nodup_cons.mp hnd).1
      rw [if_pos h, sum_indicator_zero x t hnt]
    · have hne : x ≠ a := by
        intro he
        exact (List.nodup_cons.mp hnd).1 (he ▸ h)
      rw [if_neg hne, ih (List.nodup_cons.mp hnd).2 h]

theorem monthRowCount_cons (r : Nat × String) (df : List (Nat × String))
    (m : Nat) :
    monthRowCount (r :: df) m =
      monthRowCount df m + if r.1 = m then 1 else 0 := by
  simp only [monthRowCount, List.filter_cons]
  by_cases h : r.1 = m
  · simp [h]
  · simp [h]

theorem categoryCount_cons (r : Nat × String) (df : List (Nat × String))
    (m : Nat) (c : String) :
    categoryCount (r :: df) m c =
      categoryCount df m c + if r.1 = m ∧ r.2 = c then 1 else 0 := by
  simp only [categoryCount, List.filter_cons]
  by_cases h1 : r.1 = m
  · by_cases h2 : r.2 = c
    · simp [h1, h2]
    · simp [h1, h2]
  · simp [h1]

theorem sum_categoryCount (cats : List String) (hnd : cats.Nodup)
    (df : List (Nat × String)) (m : Nat) (hdf : ∀ r ∈ df, r.2 ∈ cats) :
    (cats.map (fun c => categoryCount df m c)).sum = monthRowCount df m := by
  induction df with
  | nil =>
    rw [show monthRowCount [] m = 0 from rfl]
    rw [show (cats.map (fun c => categoryCount [] m c)) =
      cats.map (fun c => 0) from List.map_congr_left (fun c hc => rfl)]
    simp
  | cons r df ih =>
    have hr : r.2 ∈ cats := hdf r (List.mem_cons_self r df)
    have hdf2 : ∀ q ∈ df, q.2 ∈ cats :=
      fun q hq => hdf q (List.mem_cons_of_mem r hq)
    rw [List.map_congr_left (fun c hc => categoryCount_cons r df m c),
      sum_map_add_nat, ih hdf2, monthRowCount_cons]
    congr 1
    by_cases hm : r.1 = m
    · rw [List.map_congr_left (g := fun c => if r.2 = c then (1 : ℕ) else 0)
        (fun c hc => by simp [hm]), sum_indicator_one r.2 cats hnd hr,
        if_pos hm]
    · rw [List.map_congr_left (g := fun c => (0 : ℕ))
        (fun c hc => by simp [hm]), if_neg hm]
      simp

theorem monthRow_sum (df : List (Nat × String)) (cats : List String) (m : Nat)
    (hnd : cats.Nodup) (hdf : ∀ r ∈ df, r.2 ∈ cats)
    (hne : monthRowCount df m ≠ 0) :
    ∃ ps, monthRow df cats m = some ps ∧ ps.sum = 100 := by
  refine ⟨_, by rw [monthRow, if_neg hne], ?_⟩
  have hT0 : ((monthRowCount df m : ℚ)) ≠ 0 := Nat.cast_ne_zero.mpr hne
  calc (cats.map (fun c =>
        (categoryCount df m c : ℚ) / (monthRowCount df m : ℚ) * 100)).sum
      = (cats.map (fun c => (categoryCount df m c : ℚ) *
          (100 / (monthRowCount df m : ℚ)))).sum := by
        rw [List.map_congr_left (g := fun c => (categoryCount df m c : ℚ) *
          (100 / (monthRowCount df m : ℚ))) (fun c hc => by ring)]
    _ = (cats.map (fun c => (categoryCount df m c : ℚ))).sum *
          (100 / (monthRowCount df m : ℚ)) := List.sum_map_mul_right _ _ _
    _ = ((cats.map (fun c => categoryCount df m c)).sum : ℚ) *
          (100 / (monthRowCount df m : ℚ)) := by
        rw [Nat.cast_list_sum, List.map_map]
        rfl
    _ = (monthRowCount df m : ℚ) * (100 / (monthRowCount df m : ℚ)) := by
        rw [sum_categoryCount cats hnd df m hdf]
    _ = 100 := by
        field_simp

/-- C2 (amended): in each output row of the aggregation, a month with at
least one surviving record has percentages summing to exactly 100 (provided
every record label occurs in the duplicate-free category list, which the
dashboard guarantees by passing the nine-bucket labels), while a month with
zero surviving records yields the undefined `NaN` row introduced by
`reindex` — not an all-zero row. -/
theorem monthly_percentages_sum (df : List (Nat × String)) (cats : List String)
    (hnd : cats.Nodup) (hdf : ∀ r ∈ df, r.2 ∈ cats) :
    ∀ e ∈ calculate_monthly_comfort_percentages df cats,
      (monthRowCount df e.1 = 0 → e.2.2 = none)
      ∧ (monthRowCount df e.1 ≠ 0 →
          ∃ ps, e.2.2 = some ps ∧ ps.sum = 100) := by
  intro e he
  rcases List.mem_map.mp he with ⟨m, hm, rfl⟩
  refine ⟨fun h0 => ?_, fun hne => ?_⟩
  · show monthRow df cats m = none
    rw [monthRow, if_pos h0]
  · show ∃ ps, monthRow df cats m = some ps ∧ ps.sum = 100
    exact monthRow_sum df cats m hnd hdf hne

theorem monthly_percentages_sum_witness :
    ∃ ps, ((calculate_monthly_comfort_percentages df0
        comfort_categories).getD 1 (0, "", none)).2.2 = some ps
      ∧ ps.sum = 100 := by
  have hlen : 1 < (calculate_monthly_comfort_percentages df0
      comfort_categories).length := by
    rw [show (calculate_monthly_comfort_percentages df0
      comfort_categories).length = 12 from rfl]
    norm_num
  have hmem : (calculate_monthly_comfort_percentages df0
      comfort_categories).getD 1 (0, "", none) ∈
        calculate_monthly_comfort_percentages df0 comfort_categories := by
    rw [List.getD_eq_getElem _ _ hlen]
    exact List.getElem_mem _
  refine (monthly_percentages_sum df0 comfort_categories (by decide)
    (by decide) _ hmem).2 ?_
  rw [show ((calculate_monthly_comfort_percentages df0
    comfort_categories).getD 1 (0, "", none)).1 = 1 from rfl]
  decide

/-- C2 counterexample: for the concrete input with a single January record,
the first output row (December, which has zero records) is the
`reindex`-introduced `NaN` row `none` — its percentage entries are undefined
rather than all zero, refuting the claim as stated. -/
theorem monthly_percentages_dec_nan :
    (calculate_monthly_comfort_percentages df0 comfort_categories).getD 0
        (0, "", some []) = (12, "Dec", none)
    ∧ ¬∃ ps : List ℚ, ((calculate_monthly_comfort_percentages df0
        comfort_categories).getD 0 (0, "", some [])).2.2 = some ps := by
  constructor
  · rfl
  · rintro ⟨ps, hps⟩
    rw [show ((calculate_monthly_comfort_percentages df0
      comfort_categories).getD 0 (0, "", some [])).2.2 =
        (none : Option (List ℚ)) from rfl] at hps
    exact Option.noConfusion hps
